import Mathlib

/-!
Shallow embedding of the JustPlay football-app client logic (`src/app.js`)
and proofs about its state-synchronization layer: the data loaders, the
id lookups, the join-button state machine, the create/login flows, the
match-tab filters, and the modal accessibility helpers.

Conventions of the embedding:
* JavaScript `null`/`undefined` values are `Option.none`; an absent object
  field is `none` of an `Option` type.
* JavaScript string truthiness matters in several guards (`""` is falsy),
  so guards on strings test emptiness explicitly.
* `fetch`/JSON outcomes are explicit inductive inputs; the `apiGet` result
  is an `Option` (the function returns `null` on any failure) and the
  `apiPost` result is a payload-or-error-object sum (the function returns
  `{ error: msg }` on any failure).
* Code that dereferences a possibly-`null` value without a guard is
  embedded in `Except String`, where `.error` models a thrown `TypeError`.
-/

/-- JS truthiness of an optional string field: `undefined`/`null` and the
empty string are falsy. -/
def strTruthy : Option String → Bool
  | some s => !(s == "")
  | none => false

/-- JS `a || b` on optional strings (used by `errData.error || errData.message
|| errText` in `apiPost`): returns `s` when the field is present and truthy,
otherwise the fallback. -/
def jsOrStr (o : Option String) (fallback : String) : String :=
  match o with
  | some s => if s == "" then fallback else s
  | none => fallback

/-- User record as stored in the `users` collection (`src/app.js`).
`_id` is the MongoDB identifier, absent until first persisted. -/
structure User where
  _id : Option String
  name : String
  phone : String
  age : Nat
  position : String
  skillLevel : String
  avatar : Option String
deriving Repr, DecidableEq

/-- Stadium record; `_id` is the Mongo primary identifier and `id` the
alternate identifier field accepted by `getStadiumById`. -/
structure Stadium where
  _id : Option String
  id : Option String
  name : String
  address : String
  price : Nat
  slots : List String
  unavailableSlots : List String
deriving Repr, DecidableEq

/-- The embedded stadium object that the API may return inside a match's
`stadiumId` field (API-side population). -/
structure SObj where
  _id : Option String
deriving Repr, DecidableEq

/-- A match's `stadiumId` field as delivered by the API: a populated object,
a bare id string, or null. -/
inductive SRef where
  | obj (o : SObj)
  | str (s : String)
  | nullRef
deriving Repr, DecidableEq

/-- Calendar date standing for the value of a parsed date string
(`new Date(...)` comparisons in the code are chronological comparisons). -/
structure SimpleDate where
  year : Nat
  month : Nat
  day : Nat
deriving Repr, DecidableEq

/-- Chronological strict order on dates (what `new Date(a) < new Date(b)`
computes for valid date strings). -/
def dateLT (a b : SimpleDate) : Bool :=
  a.year < b.year ||
    (a.year == b.year &&
      (a.month < b.month || (a.month == b.month && a.day < b.day)))

/-- Match record as the API returns it from `GET /matches`, before the
normalization in `loadMatches`. -/
structure RawMatch where
  _id : Option String
  title : String
  stadiumId : SRef
  date : SimpleDate
  time : String
  fee : Nat
  maxPlayers : Nat
  players : List String
  status : String
  rules : List String
deriving Repr, DecidableEq

/-- Match record after `loadMatches` normalization: `id := m._id`,
`_stadium` keeps the populated object, `stadiumId` is flattened. -/
structure MatchRec where
  _id : Option String
  id : Option String
  stadiumId : SRef
  _stadium : SRef
  title : String
  date : SimpleDate
  time : String
  fee : Nat
  maxPlayers : Nat
  players : List String
  status : String
  rules : List String
deriving Repr, DecidableEq

/-- The expression `m.stadiumId?._id || m.stadiumId` from `loadMatches`: extract the id
string from a populated stadium object (JS `||` falls back to the original
value when the extracted field is absent or the empty string). -/
def flattenStadiumRef : SRef → SRef
  | .obj o =>
      match o._id with
      | some s => if s == "" then .obj o else .str s
      | none => .obj o
  | .str s => .str s
  | .nullRef => .nullRef

/-- The per-record normalization performed by `loadMatches` on API data. -/
def normalizeMatch (m : RawMatch) : MatchRec :=
  { _id := m._id
    id := m._id
    stadiumId := flattenStadiumRef m.stadiumId
    _stadium := m.stadiumId
    title := m.title
    date := m.date
    time := m.time
    fee := m.fee
    maxPlayers := m.maxPlayers
    players := m.players
    status := m.status
    rules := m.rules }

/-- The module-level mutable collections of `app.js`. -/
structure AppState where
  stadiums : List Stadium
  «matches» : List MatchRec
  users : List User
  currentUser : Option User
deriving Repr, DecidableEq

/-- Embedding of `loadStadiums()`: `apiGet('/stadiums')` returned `data` (`none` models
the `null` failure result). `if (data) stadiums = data` — wholesale replace
on success, untouched on failure. -/
def loadStadiums (st : AppState) (data : Option (List Stadium)) : AppState :=
  match data with
  | some d => { st with stadiums := d }
  | none => st

/-- Embedding of `loadMatches()`: on success, wholesale-replace `matches` with the
normalized records; on `null`, leave the collection untouched. -/
def loadMatches (st : AppState) (data : Option (List RawMatch)) : AppState :=
  match data with
  | some d => { st with «matches» := d.map normalizeMatch }
  | none => st

/-- The guard `savedUser && savedUser._id` of `loadUsers`: the saved
snapshot's identifier, provided it is present and truthy. -/
def getSavedUserId (saved : Option User) : Option String :=
  match saved with
  | some su =>
      match su._id with
      | some sid => if sid == "" then none else some sid
      | none => none
  | none => none

/-- Embedding of `loadUsers()`: on array data, wholesale-replace `users` and re-resolve
`currentUser` from the saved snapshot by identifier
(`users.find(u => u._id === savedUser._id) || null`); otherwise leave the
state untouched. `saved` is the `getSavedUser()` result (`none` when no
snapshot exists or it fails to decode). -/
def loadUsers (st : AppState) (data : Option (List User))
    (saved : Option User) : AppState :=
  match data with
  | some d =>
      let cu : Option User :=
        match getSavedUserId saved with
        | some sid => d.find? (fun u => u._id == some sid)
        | none => none
      { st with users := d, currentUser := cu }
  | none => st

/-- Embedding of `getStadiumById(id)`: linear lookup accepting the primary (`_id`) or
alternate (`id`) identifier field. -/
def getStadiumById (stads : List Stadium) (i : String) : Option Stadium :=
  stads.find? (fun s => s._id == some i || s.id == some i)

/-- Embedding of `getMatchById(id)`: linear lookup accepting the primary (`_id`) or
alternate (`id`) identifier field. -/
def getMatchById (ms : List MatchRec) (i : String) : Option MatchRec :=
  ms.find? (fun m => m._id == some i || m.id == some i)

/-- The outcome of the `fetch` round-trip inside `apiPost`, as seen by the
code: a success payload decoded to `α`, a non-ok HTTP status (with the
optional `error`/`message` fields of a decoded JSON error body, `none` for
both when the body is not JSON), or a thrown network-level failure. -/
inductive HttpResult (α : Type) where
  | ok (payload : α)
  | httpError (status : Nat) (errField : Option String) (msgField : Option String)
  | networkFailure (msg : String)
deriving Repr, DecidableEq

/-- What `apiPost` hands back to its caller: the decoded payload, or the
uniform failure shape `{ error: msg }`. -/
inductive ApiPostResult (α : Type) where
  | payload (a : α)
  | errObj (error : String)
deriving Repr, DecidableEq

/-- Embedding of `apiPost(endpoint, data)`: on a non-ok status the error text is
`errData.error || errData.message || "API error: <status>"`, then the
function throws internally and the catch returns `{ error: err.message }`;
a network failure's message is passed through the same catch. -/
def apiPost {α : Type} (r : HttpResult α) : ApiPostResult α :=
  match r with
  | .ok a => .payload a
  | .httpError status ef mf =>
      .errObj (jsOrStr ef (jsOrStr mf ("API error: " ++ toString status)))
  | .networkFailure msg => .errObj msg

/-- JS truthiness of an `apiPost` result: both a decoded JSON payload and
the `{ error: msg }` wrapper are objects, and every object is truthy. -/
def apiResultTruthy {α : Type} : ApiPostResult α → Bool
  | .payload _ => true
  | .errObj _ => true

/-- Reading `currentUser.name`: reading `.name` off `currentUser` throws a
`TypeError` when `currentUser` is `null`. -/
def getUserName (cu : Option User) : Except String String :=
  match cu with
  | some u => .ok u.name
  | none => .error "TypeError: Cannot read properties of null"

/-- The three states of the match-detail join button
(`openMatchDetail`, lines 714-729). -/
inductive JoinBtnState where
  | alreadyJoined
  | matchFull
  | joinActive
deriving Repr, DecidableEq

/-- Join-button computation of `openMatchDetail`:
`isJoined = currentMatch.players.includes(currentUser.name)` (an unguarded
dereference of `currentUser`), then `isJoined` wins over `status === 'full'`,
which wins over the actionable state. -/
def joinButtonState (m : MatchRec) (cu : Option User) :
    Except String JoinBtnState := do
  let n ← getUserName cu
  if m.players.contains n then pure .alreadyJoined
  else if m.status == "full" then pure .matchFull
  else pure .joinActive

/-- The fixed literal `new Date('2026-02-14')` used by the "past" tab filter
in `renderMatchesList`. -/
def date20260214 : SimpleDate := ⟨2026, 2, 14⟩

set_option linter.unusedVariables false in
/-- The filtering step of `renderMatchesList`, per tab. `today` is the
current date available to the program; the code never consults it — the
"past" branch compares against the fixed literal `date20260214` — and the
"my" branch dereferences `currentUser.name` without a guard. -/
def renderMatchesListFiltered (ms : List MatchRec) (tab : String)
    (cu : Option User) (today : SimpleDate) : Except String (List MatchRec) :=
  if tab == "open" then pure (ms.filter (fun m => m.status == "open"))
  else if tab == "my" then do
    let n ← getUserName cu
    pure (ms.filter (fun m => m.players.contains n))
  else if tab == "past" then
    pure (ms.filter (fun m => dateLT m.date date20260214))
  else pure ms

/-- The POST request that `joinMatchById(id)` builds: the endpoint and the
`{ playerName: currentUser.name }` body (an unguarded dereference). -/
structure JoinRequest where
  endpoint : String
  playerName : String
deriving Repr, DecidableEq

/-- Request-building half of `joinMatchById`: throws when no user is
logged in, since `currentUser.name` is read unconditionally. -/
def joinMatchByIdRequest (i : String) (cu : Option User) :
    Except String JoinRequest := do
  let n ← getUserName cu
  pure { endpoint := "/matches/" ++ i ++ "/join", playerName := n }

/-- Observable effects of the branch `joinMatchById` takes after the
`apiPost` call resolves. -/
structure JoinEffects where
  toastIcon : String
  toastMsg : String
  reloadedMatches : Bool
  rerenderedLists : Bool
deriving Repr, DecidableEq

/-- The value `result.title` as interpolated into the success toast: reading `.title`
off the `{ error: msg }` object yields `undefined`, which a JS template
literal renders as the string "undefined". -/
def resultTitleText (r : ApiPostResult RawMatch) : String :=
  match r with
  | .payload m => m.title
  | .errObj _ => "undefined"

/-- Response-handling half of `joinMatchById`: `if (result)` branches on the
truthiness of the `apiPost` result; the then-branch shows the success toast
and reloads/re-renders, the else-branch shows "Could not join match.". -/
def joinMatchByIdHandle (result : ApiPostResult RawMatch) : JoinEffects :=
  if apiResultTruthy result then
    { toastIcon := "🎉"
      toastMsg := "You joined \"" ++ resultTitleText result ++ "\"!"
      reloadedMatches := true
      rerenderedLists := true }
  else
    { toastIcon := "⚠️"
      toastMsg := "Could not join match."
      reloadedMatches := false
      rerenderedLists := false }

/-- The create-match form values read at the top of `createMatch`.
`maxPlayers` is `parseInt(...)`; `none` models `NaN` (unparsable input).
`fee` is `parseInt(...) || 0`, so it is always a number. -/
structure CreateMatchForm where
  title : String
  stadiumId : String
  date : String
  time : String
  maxPlayers : Option Int
  fee : Int
  selectedFriends : List String
deriving Repr, DecidableEq

/-- The capacity guard `selectedFriends.length + 1 > maxPlayers` of
`createMatch`; any comparison against `NaN` is false in JS, so a `NaN`
`maxPlayers` never trips the guard. -/
def capacityExceeded (f : CreateMatchForm) : Bool :=
  match f.maxPlayers with
  | some mp => decide ((f.selectedFriends.length : Int) + 1 > mp)
  | none => false

/-- The string a JS template literal renders for `n / 2` (used in the
generated rules list; `/` is float division, so odd `n` renders with ".5"). -/
def jsHalfText (n : Int) : String :=
  let sign := if n < 0 then "-" else ""
  let a := n.natAbs
  if a % 2 == 0 then sign ++ toString (a / 2)
  else sign ++ toString (a / 2) ++ ".5"

/-- The rule string `${maxPlayers / 2} vs ${maxPlayers / 2} format`; a `NaN` `maxPlayers`
renders as "NaN". -/
def ruleFormatText (mp : Option Int) : String :=
  let h := match mp with | some n => jsHalfText n | none => "NaN"
  h ++ " vs " ++ h ++ " format"

/-- The body `createMatch` would POST to `/matches`. -/
structure MatchData where
  title : String
  stadiumId : String
  date : String
  time : String
  maxPlayers : Option Int
  players : List String
  status : String
  rules : List String
  fee : Int
deriving Repr, DecidableEq

/-- Outcome of a `createMatch` submission: rejected with a toast before any
network call, or the POST request issued with the assembled body. -/
inductive CreateOutcome where
  | rejected (toastIcon toastMsg : String)
  | requestSent (data : MatchData)
deriving Repr, DecidableEq

/-- Embedding of `createMatch()`: the four validation guards in source order, then the
body assembly (which dereferences `currentUser.name` without a guard) and
the `apiPost('/matches', matchData)` call. -/
def createMatch (cu : Option User) (f : CreateMatchForm) :
    Except String CreateOutcome :=
  if f.title == "" then
    pure (.rejected "⚠️" "Please enter a match title!")
  else if f.stadiumId == "" then
    pure (.rejected "⚠️" "Please select a stadium!")
  else if f.date == "" || f.time == "" then
    pure (.rejected "⚠️" "Please select date and time!")
  else if capacityExceeded f then
    pure (.rejected "⚠️"
      ("Too many players! Max is " ++
        (match f.maxPlayers with | some mp => toString mp | none => "NaN") ++ "."))
  else do
    let n ← getUserName cu
    pure (.requestSent
      { title := f.title
        stadiumId := f.stadiumId
        date := f.date
        time := f.time
        maxPlayers := f.maxPlayers
        players := n :: f.selectedFriends
        status := "open"
        rules := [ruleFormatText f.maxPlayers, "30-minute halves",
                  "Fair play rules apply", "Have fun!"]
        fee := f.fee })

/-- The login form values read at the top of `submitLogin` (name and phone
trimmed, the rest raw `value` strings). -/
structure LoginForm where
  name : String
  phone : String
  age : String
  position : String
  skillLevel : String
deriving Repr, DecidableEq

/-- Observable effects of a `submitLogin` run. `sessionSaved` is the
argument `saveCurrentUser` was called with (`none` = not called);
`createUserCalled` records whether `apiPost('/users', …)` was issued. -/
structure LoginEffects where
  currentUser : Option User
  sessionSaved : Option User
  createUserCalled : Bool
  navigatedHome : Bool
deriving Repr, DecidableEq

/-- Embedding of `submitLogin()`: reject empty fields; otherwise look up an existing
user by phone (`users.find(u => u.phone === phone)`). A hit logs in that
record and persists it with no create-user call; a miss POSTs the new-user
payload and branches on `res && !res.error`. `cu0` is the prior
`currentUser`; `apiRes` the `apiPost('/users', …)` result (consulted only
on the register path). -/
def submitLogin (cu0 : Option User) (users : List User) (f : LoginForm)
    (apiRes : ApiPostResult User) : LoginEffects :=
  if f.name == "" || f.phone == "" || f.age == "" || f.position == "" ||
      f.skillLevel == "" then
    { currentUser := cu0, sessionSaved := none
      createUserCalled := false, navigatedHome := false }
  else
    match users.find? (fun u => u.phone == f.phone) with
    | some existing =>
        { currentUser := some existing, sessionSaved := some existing
          createUserCalled := false, navigatedHome := true }
    | none =>
        match apiRes with
        | .payload newU =>
            { currentUser := some newU, sessionSaved := some newU
              createUserCalled := true, navigatedHome := true }
        | .errObj _ =>
            { currentUser := cu0, sessionSaved := none
              createUserCalled := true, navigatedHome := false }

/-- A DOM element as the modal helpers see it: an opaque identity plus
whether `typeof el.focus === 'function'` holds. -/
structure Elem where
  tag : Nat
  hasFocusFn : Bool
deriving Repr, DecidableEq

/-- The modal-instance state the accessibility helpers mutate: the two
stored handler references, the saved previously-focused element, the
`aria-hidden` attribute, the registered listener sets, and the element
currently holding focus. Handler references are opaque `Nat` ids. -/
structure ModalState where
  overlayClick : Option Nat
  keyHandler : Option Nat
  previouslyFocused : Option Elem
  ariaHidden : Bool
  modalListeners : List Nat
  docListeners : List Nat
  focusedNow : Option Elem
deriving Repr, DecidableEq

/-- Calling `el.focus()`: throws a `TypeError` when the receiver has no `focus`
function (the guard in `_removeModalHandlers` checks exactly this). -/
def callFocus (st : ModalState) (e : Elem) : Except String ModalState :=
  if e.hasFocusFn then .ok { st with focusedNow := some e }
  else .error "TypeError: focus is not a function"

/-- Embedding of `_removeModalHandlers(modal)`: unregister the stored handlers (each one
guarded by its own null-check), mark the modal `aria-hidden`, restore focus
to the previously-focused element when it exists and supports `focus`, and
null out all three stored references. -/
def _removeModalHandlers (st : ModalState) : Except String ModalState := do
  let st1 :=
    match st.overlayClick with
    | some h => { st with modalListeners := st.modalListeners.erase h }
    | none => st
  let st2 :=
    match st1.keyHandler with
    | some h => { st1 with docListeners := st1.docListeners.erase h }
    | none => st1
  let st3 := { st2 with ariaHidden := true }
  let st4 ←
    match st3.previouslyFocused with
    | some e => if e.hasFocusFn then callFocus st3 e else pure st3
    | none => pure st3
  pure { st4 with overlayClick := none, keyHandler := none,
                  previouslyFocused := none }

/-! ### Helper lemmas about linear lookup -/

/-- Lookup via `find?` returns the element when it is the only one satisfying the
predicate. -/
theorem find?_eq_of_mem_of_unique {α : Type} (p : α → Bool) :
    ∀ (l : List α) (a : α), a ∈ l → p a = true →
      (∀ b ∈ l, p b = true → b = a) → l.find? p = some a := by
  intro l
  induction l with
  | nil => intro a ha _ _; cases ha
  | cons x t ih =>
    intro a ha hpa huniq
    cases hx : p x with
    | true =>
      have hxa : x = a := huniq x (List.mem_cons_self x t) hx
      subst hxa
      exact List.find?_cons_of_pos _ hx
    | false =>
      have hat : a ∈ t := by
        rcases List.mem_cons.mp ha with h | h
        · subst h; rw [hpa] at hx; cases hx
        · exact h
      rw [List.find?_cons_of_neg _ (by simp [hx])]
      exact ih a hat hpa (fun b hb hpb => huniq b (List.mem_cons_of_mem _ hb) hpb)

/-- Lookup via `find?` returns the first satisfying element: an all-failing prefix is
skipped. -/
theorem find?_append_first {α : Type} (p : α → Bool) (r : α) (post : List α) :
    ∀ (pre : List α), (∀ s ∈ pre, p s = false) → p r = true →
      (pre ++ r :: post).find? p = some r := by
  intro pre
  induction pre with
  | nil => intro _ hr; simpa using List.find?_cons_of_pos _ hr
  | cons x t ih =>
    intro hpre hr
    have hx : p x = false := hpre x (List.mem_cons_self x t)
    rw [List.cons_append, List.find?_cons_of_neg _ (by simp [hx])]
    exact ih (fun s hs => hpre s (List.mem_cons_of_mem _ hs)) hr

/-! ### Sample records used to instantiate theorems with hypotheses -/

/-- Sample persisted user. -/
def userA : User :=
  { _id := some "u1", name := "Ahmed K.", phone := "0550000001", age := 25,
    position := "GK", skillLevel := "pro", avatar := none }

/-- Sample second user with a distinct identifier and phone. -/
def userB : User :=
  { _id := some "u2", name := "Omar B.", phone := "0550000002", age := 30,
    position := "CB", skillLevel := "amateur", avatar := none }

/-- Sample empty application state. -/
def emptyState : AppState :=
  { stadiums := [], «matches» := [], users := [], currentUser := none }

/-! ### C1 -/

/-- C1: when `loadUsers` succeeds with a freshly loaded list, `currentUser`
is re-resolved from the saved snapshot's identifier X: it becomes the unique
matching record when one exists; it becomes null when no record matches,
when the snapshot carries no identifier, or when no snapshot exists — never
a stale object from before the load. -/
theorem c1_loadUsers_rehydrates_currentUser :
    (∀ (st : AppState) (us : List User) (su u : User) (X : String),
        su._id = some X → X ≠ "" → u ∈ us → u._id = some X →
        (∀ v ∈ us, v._id = some X → v = u) →
        (loadUsers st (some us) (some su)).currentUser = some u) ∧
    (∀ (st : AppState) (us : List User) (su : User) (X : String),
        su._id = some X → (∀ v ∈ us, v._id ≠ some X) →
        (loadUsers st (some us) (some su)).currentUser = none) ∧
    (∀ (st : AppState) (us : List User),
        (loadUsers st (some us) none).currentUser = none) ∧
    (∀ (st : AppState) (us : List User) (su : User), su._id = none →
        (loadUsers st (some us) (some su)).currentUser = none) := by
  refine ⟨?_, ?_, ?_, ?_⟩
  · intro st us su u X hsu hX hu hid huniq
    simp only [loadUsers, getSavedUserId, hsu, beq_iff_eq, if_neg hX]
    exact find?_eq_of_mem_of_unique _ us u hu (by simp [hid])
      (fun b hb hpb => huniq b hb (by simpa using hpb))
  · intro st us su X hsu hall
    by_cases hX : X = ""
    · subst hX
      simp [loadUsers, getSavedUserId, hsu]
    · simp only [loadUsers, getSavedUserId, hsu, beq_iff_eq, if_neg hX]
      rw [List.find?_eq_none.mpr]
      intro a ha
      simpa using hall a ha
  · intro st us
    simp [loadUsers, getSavedUserId]
  · intro st us su h
    simp [loadUsers, getSavedUserId, h]

/-- Witness for C1 at a concrete state: re-hydrating from a snapshot with
identifier "u1" against a loaded list containing exactly `userA` yields
`userA`. -/
theorem c1_witness :
    (loadUsers emptyState (some [userB, userA]) (some userA)).currentUser =
      some userA :=
  c1_loadUsers_rehydrates_currentUser.1 emptyState [userB, userA] userA userA
    "u1" rfl (by decide) (by simp) rfl
    (by intro v hv hvid
        rcases List.mem_cons.mp hv with h | h
        · subst h; exact absurd hvid (by decide)
        · simpa using h)

/-! ### C3 -/

/-- C3: each loader leaves the whole state (hence its collection) untouched
when the Gateway Adapter returns the failure value, and wholesale-replaces
its collection with the (for matches, normalized) result on success. -/
theorem c3_loaders_stale_or_replace :
    (∀ st : AppState, loadStadiums st none = st) ∧
    (∀ st : AppState, loadMatches st none = st) ∧
    (∀ (st : AppState) (saved : Option User), loadUsers st none saved = st) ∧
    (∀ (st : AppState) (d : List Stadium),
        (loadStadiums st (some d)).stadiums = d) ∧
    (∀ (st : AppState) (d : List RawMatch),
        (loadMatches st (some d)).«matches» = d.map normalizeMatch) ∧
    (∀ (st : AppState) (d : List User) (saved : Option User),
        (loadUsers st (some d) saved).users = d) :=
  ⟨fun _ => rfl, fun _ => rfl, fun _ _ => rfl,
   fun _ _ => rfl, fun _ _ => rfl, fun _ _ _ => rfl⟩

/-! ### C2 -/

/-- C2: `getStadiumById` / `getMatchById` return the first record whose
primary (`_id`) or alternate (`id`) identifier field equals the argument —
a record is found no matter which of the two fields carries the value —
and return the absence value when no record matches either field. -/
theorem c2_getById_dual_key_lookup :
    (∀ (stads : List Stadium) (i : String) (r : Stadium),
        getStadiumById stads i = some r →
        r ∈ stads ∧ (r._id = some i ∨ r.id = some i)) ∧
    (∀ (stads : List Stadium) (i : String),
        (∀ s ∈ stads, s._id ≠ some i ∧ s.id ≠ some i) →
        getStadiumById stads i = none) ∧
    (∀ (pre : List Stadium) (r : Stadium) (post : List Stadium) (i : String),
        (∀ s ∈ pre, s._id ≠ some i ∧ s.id ≠ some i) →
        (r._id = some i ∨ r.id = some i) →
        getStadiumById (pre ++ r :: post) i = some r) ∧
    (∀ (ms : List MatchRec) (i : String) (r : MatchRec),
        getMatchById ms i = some r →
        r ∈ ms ∧ (r._id = some i ∨ r.id = some i)) ∧
    (∀ (ms : List MatchRec) (i : String),
        (∀ m ∈ ms, m._id ≠ some i ∧ m.id ≠ some i) →
        getMatchById ms i = none) ∧
    (∀ (pre : List MatchRec) (r : MatchRec) (post : List MatchRec)
        (i : String),
        (∀ m ∈ pre, m._id ≠ some i ∧ m.id ≠ some i) →
        (r._id = some i ∨ r.id = some i) →
        getMatchById (pre ++ r :: post) i = some r) := by
  refine ⟨?_, ?_, ?_, ?_, ?_, ?_⟩
  · intro stads i r h
    exact ⟨List.mem_of_find?_eq_some h, by simpa using List.find?_some h⟩
  · intro stads i hall
    unfold getStadiumById
    exact List.find?_eq_none.mpr (fun s hs => by simpa using hall s hs)
  · intro pre r post i hpre hr
    unfold getStadiumById
    exact find?_append_first _ r post pre
      (fun s hs => by simp [(hpre s hs).1, (hpre s hs).2])
      (by rcases hr with h | h <;> simp [h])
  · intro ms i r h
    exact ⟨List.mem_of_find?_eq_some h, by simpa using List.find?_some h⟩
  · intro ms i hall
    unfold getMatchById
    exact List.find?_eq_none.mpr (fun m hm => by simpa using hall m hm)
  · intro pre r post i hpre hr
    unfold getMatchById
    exact find?_append_first _ r post pre
      (fun m hm => by simp [(hpre m hm).1, (hpre m hm).2])
      (by rcases hr with h | h <;> simp [h])

/-- Sample stadium carrying only the primary identifier field. -/
def stadiumA : Stadium :=
  { _id := some "s1", id := none, name := "Elite Stadium",
    address := "Algiers", price := 2000, slots := ["09:00", "11:00"],
    unavailableSlots := ["09:00"] }

/-- Sample stadium carrying only the alternate identifier field. -/
def stadiumB : Stadium :=
  { _id := none, id := some "s2", name := "Camp Nou Salam",
    address := "Oran", price := 1800, slots := [], unavailableSlots := [] }

/-- Witness for C2: the lookup skips a non-matching record and finds the
record whose primary field carries the identifier. -/
theorem c2_witness :
    getStadiumById [stadiumB, stadiumA] "s1" = some stadiumA :=
  c2_getById_dual_key_lookup.2.2.1 [stadiumB] stadiumA [] "s1"
    (by intro s hs
        rw [List.mem_singleton] at hs
        subst hs
        exact ⟨by decide, by decide⟩)
    (Or.inl rfl)

/-! ### C4 -/

/-- C4: for a logged-in user the join button is in exactly one of three
states — "Already Joined" iff the user's name is in the players list,
otherwise "Match is Full" iff the status is "full", otherwise the
actionable "Join" state; the joined check takes precedence over the full
check. -/
theorem c4_join_button_three_states :
    ∀ (m : MatchRec) (u : User),
      (joinButtonState m (some u) = .ok .alreadyJoined ↔
        u.name ∈ m.players) ∧
      (joinButtonState m (some u) = .ok .matchFull ↔
        u.name ∉ m.players ∧ m.status = "full") ∧
      (joinButtonState m (some u) = .ok .joinActive ↔
        u.name ∉ m.players ∧ m.status ≠ "full") := by
  intro m u
  by_cases h1 : u.name ∈ m.players
  · simp [joinButtonState, getUserName, h1, bind, Except.bind, pure,
      Except.pure]
  · by_cases h2 : m.status = "full" <;>
      simp [joinButtonState, getUserName, h1, h2, bind, Except.bind, pure,
        Except.pure]

/-- Sample normalized match record that is full and already joined by
`userA`. -/
def matchA : MatchRec :=
  { _id := some "m1", id := some "m1", stadiumId := .str "s1",
    _stadium := .obj ⟨some "s1"⟩, title := "Friday Game",
    date := ⟨2026, 2, 10⟩, time := "18:00", fee := 0, maxPlayers := 2,
    players := ["Ahmed K.", "Omar B."], status := "full",
    rules := ["1 vs 1 format"] }

/-- Witness for C4: `userA` is in `matchA`'s players list, so the button is
in the disabled "Already Joined" state even though the match is full. -/
theorem c4_witness :
    joinButtonState matchA (some userA) = .ok .alreadyJoined :=
  (c4_join_button_three_states matchA userA).1.mpr (by decide)

/-! ### C5 -/

/-- C5 at the failing inputs: `apiPost` does normalize failures to the
`{ error: msg }` object, but `joinMatchById`'s `if (result)` test is on an
object that is always truthy, so on an adapter failure the caller still
executes the success path — success toast (interpolating the absent title
as "undefined"), match reload, and re-render — and the written failure
branch is unreachable. -/
theorem c5_joinMatchById_error_takes_success_branch :
    apiPost (α := RawMatch) (.networkFailure "Failed to fetch") =
      .errObj "Failed to fetch" ∧
    apiPost (α := RawMatch) (.httpError 400 (some "Match is full") none) =
      .errObj "Match is full" ∧
    joinMatchByIdHandle (.errObj "Failed to fetch") =
      { toastIcon := "🎉", toastMsg := "You joined \"undefined\"!",
        reloadedMatches := true, rerenderedLists := true } ∧
    (∀ r : ApiPostResult RawMatch,
      (joinMatchByIdHandle r).reloadedMatches = true ∧
      (joinMatchByIdHandle r).toastIcon = "🎉") :=
  ⟨rfl, rfl, rfl, fun r => by cases r <;> exact ⟨rfl, rfl⟩⟩

/-! ### C6 -/

/-- C6: whenever the selected friends plus the creator exceed the entered
`maxPlayers`, `createMatch` resolves to a rejection toast — before the
`currentUser.name` read and before any network call — and never to a sent
match-creation request. -/
theorem c6_createMatch_capacity_rejects :
    ∀ (cu : Option User) (f : CreateMatchForm) (mp : Int),
      f.maxPlayers = some mp →
      (f.selectedFriends.length : Int) + 1 > mp →
      (∃ msg, createMatch cu f = .ok (.rejected "⚠️" msg)) ∧
      (∀ d, createMatch cu f ≠ .ok (.requestSent d)) := by
  intro cu f mp hmp hgt
  have hcap : capacityExceeded f = true := by
    simp [capacityExceeded, hmp]
    exact hgt
  have hrej : ∃ msg, createMatch cu f = .ok (.rejected "⚠️" msg) := by
    unfold createMatch
    cases h1 : (f.title == "") <;> cases h2 : (f.stadiumId == "") <;>
      cases h3 : (f.date == "" || f.time == "") <;>
        simp [h1, h2, h3, hcap, pure, Except.pure]
  refine ⟨hrej, ?_⟩
  obtain ⟨msg, he⟩ := hrej
  intro d hd
  rw [he] at hd
  simp at hd

/-- Sample create-match form: `maxPlayers = 4` with 4 selected friends,
so creator included the party is 5 > 4. -/
def overfullForm : CreateMatchForm :=
  { title := "Friday Game", stadiumId := "s1", date := "2026-03-01",
    time := "18:00", maxPlayers := some 4, fee := 0,
    selectedFriends := ["Youssef A.", "Omar B.", "Khalid M.", "Ali R."] }

/-- Witness for C6: the 5-player submission against `maxPlayers = 4` is
rejected and no request value is produced. -/
theorem c6_witness :
    (∃ msg, createMatch (some userA) overfullForm =
      .ok (.rejected "⚠️" msg)) ∧
    (∀ d, createMatch (some userA) overfullForm ≠ .ok (.requestSent d)) :=
  c6_createMatch_capacity_rejects (some userA) overfullForm 4 rfl
    (by decide)

/-! ### C8 -/

/-- C8: the "past" tab classifies a match as past exactly when its date is
strictly earlier than the fixed literal 2026-02-14; the classification does
not depend on the actual current date. -/
theorem c8_past_tab_uses_fixed_literal :
    ∀ (ms : List MatchRec) (cu : Option User) (today today2 : SimpleDate)
      (m : MatchRec),
      (renderMatchesListFiltered ms "past" cu today =
        renderMatchesListFiltered ms "past" cu today2) ∧
      (renderMatchesListFiltered ms "past" cu today =
        .ok (ms.filter (fun x => dateLT x.date date20260214))) ∧
      (m ∈ ms.filter (fun x => dateLT x.date date20260214) ↔
        m ∈ ms ∧ dateLT m.date date20260214 = true) := by
  intro ms cu today today2 m
  refine ⟨rfl, rfl, ?_⟩
  simp [List.mem_filter]

/-- Witness for C8: a match dated 2026-02-10 is classified as past by the
literal threshold (whatever the current date is). -/
theorem c8_witness :
    matchA ∈ [matchA].filter (fun x => dateLT x.date date20260214) :=
  (c8_past_tab_uses_fixed_literal [matchA] none ⟨2020, 1, 1⟩ ⟨2030, 1, 1⟩
      matchA).2.2.mpr ⟨by simp, by decide⟩

/-! ### C7 -/

/-- C7: a valid login whose phone matches a loaded user logs that record in
(setting and persisting `currentUser`) without issuing a create-user call;
the create-user call is issued only when no loaded user carries the phone
number. -/
theorem c7_submitLogin_existing_phone :
    (∀ (cu0 : Option User) (us : List User) (f : LoginForm)
        (apiRes : ApiPostResult User) (existing : User),
        f.name ≠ "" → f.phone ≠ "" → f.age ≠ "" → f.position ≠ "" →
        f.skillLevel ≠ "" →
        us.find? (fun u => u.phone == f.phone) = some existing →
        (submitLogin cu0 us f apiRes).currentUser = some existing ∧
        (submitLogin cu0 us f apiRes).sessionSaved = some existing ∧
        (submitLogin cu0 us f apiRes).createUserCalled = false) ∧
    (∀ (cu0 : Option User) (us : List User) (f : LoginForm)
        (apiRes : ApiPostResult User),
        (submitLogin cu0 us f apiRes).createUserCalled = true →
        ∀ u ∈ us, u.phone ≠ f.phone) := by
  constructor
  · intro cu0 us f apiRes existing h1 h2 h3 h4 h5 hfind
    simp [submitLogin, h1, h2, h3, h4, h5, hfind]
  · intro cu0 us f apiRes hcall
    unfold submitLogin at hcall
    by_cases hval : (f.name == "" || f.phone == "" || f.age == "" ||
        f.position == "" || f.skillLevel == "") = true
    · rw [if_pos hval] at hcall
      simp at hcall
    · rw [if_neg hval] at hcall
      cases hf : us.find? (fun v => v.phone == f.phone) with
      | some e => rw [hf] at hcall; simp at hcall
      | none =>
        intro u hu heq
        have h2 := List.find?_eq_none.mp hf u hu
        simp [heq] at h2

/-- Sample valid login form re-using `userA`'s phone number. -/
def loginFormA : LoginForm :=
  { name := "Someone Else", phone := "0550000001", age := "27",
    position := "ST", skillLevel := "amateur" }

/-- Witness for C7: logging in with `userA`'s phone sets and persists
`currentUser := userA` and issues no create-user call (the adapter result
would have been an error, but it is never consulted). -/
theorem c7_witness :
    (submitLogin none [userB, userA] loginFormA
        (ApiPostResult.errObj "unused")).currentUser = some userA ∧
    (submitLogin none [userB, userA] loginFormA
        (ApiPostResult.errObj "unused")).sessionSaved = some userA ∧
    (submitLogin none [userB, userA] loginFormA
        (ApiPostResult.errObj "unused")).createUserCalled = false :=
  c7_submitLogin_existing_phone.1 none [userB, userA] loginFormA
    (ApiPostResult.errObj "unused") userA (by decide) (by decide)
    (by decide) (by decide) (by decide) (by decide)

/-! ### C9 -/

/-- C9: `_removeModalHandlers` is total — in particular it is safe on an
already-closed modal whose stored references are all null — and every run
marks the modal hidden to assistive technology and nulls out the three
stored references. -/
theorem c9_removeModalHandlers_idempotently_safe :
    ∀ st : ModalState, ∃ st',
      _removeModalHandlers st = .ok st' ∧
      st'.ariaHidden = true ∧
      st'.overlayClick = none ∧
      st'.keyHandler = none ∧
      st'.previouslyFocused = none := by
  intro st
  obtain ⟨oc, kh, pf, ah, ml, dl, fn⟩ := st
  cases oc <;> cases kh <;> rcases pf with _ | ⟨t, hf⟩ <;>
    first
      | exact ⟨_, rfl, rfl, rfl, rfl, rfl⟩
      | (cases hf <;> exact ⟨_, rfl, rfl, rfl, rfl, rfl⟩)

/-! ### C10 -/

/-- C10: with no logged-in user, the three operations that read
`currentUser.name` without a guard — the join-button computation of
`openMatchDetail`, the "my" tab filter of `renderMatchesList`, and the
request building of `joinMatchById` — throw a `TypeError` instead of
producing a guest-appropriate result, while each succeeds for any
logged-in user: a logged-in-user precondition. -/
theorem c10_null_currentUser_throws :
    ∀ (m : MatchRec) (ms : List MatchRec) (i : String) (today : SimpleDate)
      (u : User),
      joinButtonState m none =
        .error "TypeError: Cannot read properties of null" ∧
      renderMatchesListFiltered ms "my" none today =
        .error "TypeError: Cannot read properties of null" ∧
      joinMatchByIdRequest i none =
        .error "TypeError: Cannot read properties of null" ∧
      (∃ b, joinButtonState m (some u) = .ok b) ∧
      (∃ l, renderMatchesListFiltered ms "my" (some u) today = .ok l) ∧
      (∃ r, joinMatchByIdRequest i (some u) = .ok r) := by
  intro m ms i today u
  refine ⟨rfl, rfl, rfl, ?_, ?_, ?_⟩
  · refine ⟨if m.players.contains u.name then .alreadyJoined
      else if m.status == "full" then .matchFull else .joinActive, ?_⟩
    by_cases h1 : u.name ∈ m.players <;>
      by_cases h2 : m.status = "full" <;>
        simp [joinButtonState, getUserName, h1, h2, bind, Except.bind,
          pure, Except.pure]
  · exact ⟨ms.filter (fun x => x.players.contains u.name), rfl⟩
  · exact ⟨{ endpoint := "/matches/" ++ i ++ "/join", playerName := u.name },
      rfl⟩
